import Mathlib

/-!
A verification development for the variant-intelligence aggregator
(`src/app.py`).  The Python source is shallowly embedded: every pure or
effect-free computation is translated into an executable Lean definition,
and the three external services (Tavily web search, the OncoKB REST API,
and the Gemini generation API) are modelled as explicit oracles passed in
as function arguments.  String primitives used by the Python code
(`str.strip`, `str.upper`, `str.format`, `in`, `' '.join`, …) are
re-implemented over `List Char` so that every definition reduces inside
the kernel and concrete runs can be checked with `decide`.
-/

namespace VariantApp

/-! ## String primitives (kernel-reducible models of the Python built-ins) -/

/-- Model of Python `str.upper` (ASCII case mapping). -/
def strUpper (s : String) : String := ⟨s.data.map Char.toUpper⟩

/-- Model of Python slicing `s[n:]` (character based, as in the source's
`alteration_upper[2:]`). -/
def strDrop (s : String) (n : Nat) : String := ⟨s.data.drop n⟩

/-- Model of Python `str.startswith`. -/
def strStartsWith (s pat : String) : Bool := pat.data.isPrefixOf s.data

/-- Model of Python `str.strip` (whitespace on both ends). -/
def strStrip (s : String) : String :=
  ⟨((s.data.dropWhile Char.isWhitespace).reverse.dropWhile Char.isWhitespace).reverse⟩

/-- Substring scan over character lists, structural so that it reduces. -/
def containsAux (pat : List Char) : List Char → Bool
  | [] => pat.isEmpty
  | c :: rest => pat.isPrefixOf (c :: rest) || containsAux pat rest

/-- Model of Python `pat in s` for strings (substring containment). -/
def strContains (s pat : String) : Bool := containsAux pat.data s.data

/-- Model of Python `sep.join(xs)`. -/
def strJoin (sep : String) : List String → String
  | [] => ""
  | [s] => s
  | s :: rest => s ++ sep ++ strJoin sep rest

/-- Model of Python `s.replace('_', ' ')` as used on evidence levels. -/
def underscoresToSpaces (s : String) : String :=
  ⟨s.data.map (fun c => if c = '_' then ' ' else c)⟩

/-- The `\x7bvariant\x7d` replacement field used by the query template. -/
def variantPlaceholder : List Char := "\x7bvariant\x7d".data

/-- Fuel-driven substitution engine behind `pyFormatVariant`; the fuel is
the length of the remaining text, enough because each step consumes at
least one character. -/
def substVariantFuel (variant : List Char) : Nat → List Char → List Char
  | 0, s => s
  | _ + 1, [] => []
  | n + 1, c :: rest =>
    if variantPlaceholder.isPrefixOf (c :: rest) then
      variant ++ substVariantFuel variant n ((c :: rest).drop variantPlaceholder.length)
    else
      c :: substVariantFuel variant n rest

/-- Model of Python `template.format(variant=v)` for templates whose only
replacement field is the variant placeholder (the tool's documented
usage): every occurrence of the placeholder is replaced by `variant`. -/
def pyFormatVariant (template variant : String) : String :=
  ⟨substVariantFuel variant.data template.data.length template.data⟩

/-- Python truthiness of an optional string (`None` and `""` are falsy). -/
def isTruthyStr (o : Option String) : Bool :=
  match o with
  | some s => s ≠ ""
  | none => false

/-! ## Query Builder (src/app.py lines 290-291, 304-305, 315)

The main flow strips the configured tumor type once
(`tumor_type = st.session_state.tumor_type.strip()`, line 291) and then
builds one query per variant.  Both constructions are embedded, taking
the raw tumor-type text and performing the strip themselves. -/

/-- The default web-search query template (src/app.py line 50). -/
def defaultTemplate : String := "clinical significance of genetic variant \x7bvariant\x7d"

/-- Query sent to the Tavily fetcher (line 315):
`f"\x7bquery_template.format(variant=v)\x7d \x7b'in ' + tumor_type if tumor_type else ''\x7d"`.
Note the f-string always inserts a space between the two fields. -/
def tavilyQuery (query_template variant tumor_type_raw : String) : String :=
  let tumor_type := strStrip tumor_type_raw
  pyFormatVariant query_template variant ++ " " ++
    (if tumor_type ≠ "" then "in " ++ tumor_type else "")

/-- Query used for the Perplexity quick links (lines 304-305):
`base_query` when the tumor type is blank, otherwise
`f"\x7bbase_query\x7d in \x7btumor_type\x7d"`. -/
def perplexityQuery (query_template variant tumor_type_raw : String) : String :=
  let tumor_type := strStrip tumor_type_raw
  let base_query := pyFormatVariant query_template variant
  if tumor_type ≠ "" then base_query ++ " in " ++ tumor_type else base_query

/-! ## Model Fallback Summarizer (src/app.py lines 162-206)

`summarize_with_gemini(prompt, available_models)` calls
`genai.GenerativeModel(name).generate_content(prompt)` for each candidate
model.  That external call is modelled by an oracle
`gen : String → String → GenOutcome` mapping `(model name, prompt)` to
the observed behaviour: `ok text` when the call returns normally with
`response.text = text` (possibly empty/blocked, i.e. `""`), and
`err msg` when it raises an exception with `str(e) = msg`. -/

/-- Observable behaviour of one `generate_content` call. -/
inductive GenOutcome where
  | ok (text : String)
  | err (msg : String)
deriving DecidableEq, Repr

/-- The dictionary returned by `summarize_with_gemini`:
`{"summary": …, "warnings": …, "error": …}`. -/
structure SummaryOutcome where
  summary : String
  warnings : List String
  error : Option String
deriving DecidableEq, Repr

/-- Warning appended when a model returns an empty or blocked response. -/
def emptyRespWarn (model_name : String) : String :=
  "Model '" ++ model_name ++ "' returned an empty or blocked response."

/-- Value recorded in `last_error` for an empty or blocked response. -/
def emptyRespErr : String := "Model returned an empty or blocked response."

/-- Warning appended when a model raises: `f"Model '…' failed: …"`. -/
def failWarn (model_name msg : String) : String :=
  "Model '" ++ model_name ++ "' failed: " ++ msg

/-- Notice appended when the dynamic fallback is triggered. -/
def notFoundNotice (model_name : String) : String :=
  "'" ++ model_name ++ "' not found. Trying other available models..."

/-- The final summary text built at lines 202-204. -/
def finalSummary (last_error : Option String) : String :=
  match last_error with
  | some e => "Unable to generate summary." ++ " Last known error: " ++ e
  | none => "Unable to generate summary."

/-- The value returned at line 206 after every candidate is exhausted. -/
def finalOutcome (warnings : List String) (last_error : Option String) : SummaryOutcome :=
  { summary := finalSummary last_error, warnings := warnings, error := last_error }

/-- The retryability test at line 185:
`"404" in last_error and "is not found" in last_error`. -/
def is404NotFound (msg : String) : Bool :=
  strContains msg "404" && strContains msg "is not found"

/-- The dynamic-model loop (lines 189-199): iterate the remaining dynamic
models, returning `Sum.inl` on the first non-empty response (an early
`return` in the source) and otherwise `Sum.inr` with the accumulated
warnings and last error. -/
def dynamicLoop (gen : String → String → GenOutcome) (prompt : String) :
    List String → List String → Option String → SummaryOutcome ⊕ (List String × Option String)
  | [], warnings, last_error => Sum.inr (warnings, last_error)
  | m :: rest, warnings, last_error =>
    match gen m prompt with
    | .ok t =>
      if t ≠ "" then Sum.inl { summary := t, warnings := warnings, error := none }
      else dynamicLoop gen prompt rest (warnings ++ [emptyRespWarn m]) (some emptyRespErr)
    | .err msg => dynamicLoop gen prompt rest (warnings ++ [failWarn m msg]) (some msg)

/-- The candidate list spliced in at line 188:
`[m for m in available_models if m != model_name]`. -/
def spliceCandidates (available_models : List String) (model_name : String) : List String :=
  available_models.filter (fun x => x ≠ model_name)

/-- The body of the `if available_models:` block (lines 187-200): append
the notice, run the dynamic loop, and — because of the `break` at line
200 — fall through to the final-failure outcome when the dynamic loop is
exhausted.  `warnings1` is the warning list after the triggering model's
own failure warning was appended. -/
def splicePhase (gen : String → String → GenOutcome) (prompt : String)
    (available_models : List String) (model_name msg : String)
    (warnings1 : List String) : SummaryOutcome :=
  match dynamicLoop gen prompt (spliceCandidates available_models model_name)
      (warnings1 ++ [notFoundNotice model_name]) (some msg) with
  | Sum.inl outcome => outcome
  | Sum.inr (warnings2, last_error2) => finalOutcome warnings2 last_error2

/-- The loop over `models_to_try` (lines 174-200) with the trailing
failure return (lines 202-206).  State: remaining candidates, accumulated
warnings, `last_error`. -/
def summarizeGo (gen : String → String → GenOutcome) (prompt : String)
    (available_models : List String) :
    List String → List String → Option String → SummaryOutcome
  | [], warnings, last_error => finalOutcome warnings last_error
  | m :: rest, warnings, last_error =>
    match gen m prompt with
    | .ok t =>
      if t ≠ "" then { summary := t, warnings := warnings, error := none }
      else summarizeGo gen prompt available_models rest
        (warnings ++ [emptyRespWarn m]) (some emptyRespErr)
    | .err msg =>
      if is404NotFound msg && !available_models.isEmpty then
        splicePhase gen prompt available_models m msg (warnings ++ [failWarn m msg])
      else
        summarizeGo gen prompt available_models rest
          (warnings ++ [failWarn m msg]) (some msg)

/-- The hard-coded preferred list (line 171). -/
def preferred_models : List String := ["gemini-1.5-flash-latest", "gemini-pro"]

/-- Embedding of `summarize_with_gemini(prompt, available_models)`.  In the source
`models_to_try = preferred_models` always; the candidate list is exposed
as a parameter so that properties can quantify over it, and the source's
entry point is recovered by passing `preferred_models`. -/
def summarize_with_gemini (gen : String → String → GenOutcome) (prompt : String)
    (models_to_try available_models : List String) : SummaryOutcome :=
  summarizeGo gen prompt available_models models_to_try [] none

/-- The `last_error` value a failed attempt leaves behind (`none` when
the attempt actually succeeded with non-empty text). -/
def attemptFailure (o : GenOutcome) : Option String :=
  match o with
  | .ok t => if t ≠ "" then none else some emptyRespErr
  | .err msg => some msg

/-- The single warning a failed attempt appends for model `m`. -/
def attemptWarning (m : String) (o : GenOutcome) : Option String :=
  match o with
  | .ok t => if t ≠ "" then none else some (emptyRespWarn m)
  | .err msg => some (failWarn m msg)

/-- Whether an attempt with outcome `o` avoids the dynamic-fallback
branch (lines 185-200) given the session's `available_models` list. -/
def noSplice (available_models : List String) (o : GenOutcome) : Bool :=
  match o with
  | .err msg => !(is404NotFound msg && !available_models.isEmpty)
  | .ok _ => true

/-- The last error observed when every model in the list fails (used to
state the total-failure property). -/
def allFailLastError (gen : String → String → GenOutcome) (prompt : String) :
    List String → Option String
  | [] => none
  | [m] => some ((attemptFailure (gen m prompt)).getD "")
  | _ :: m :: rest => allFailLastError gen prompt (m :: rest)

/-! ## Source Fetchers (src/app.py lines 110-144)

An HTTP exchange made with the `requests` library is abstracted by
`HttpResult`: either the request raised a transport-level
`RequestException` before a response existed, or a response arrived with
a status code and a body that either parses as JSON (`some payload`) or
is malformed (`none`).  `raise_for_status()` raises `HTTPError` exactly
for 4xx/5xx statuses, modelled as `400 ≤ status`.  Malformed-body
decoding errors surface as `requests.exceptions.JSONDecodeError`, which
(in the requests releases this app runs against) is both a
`RequestException` and a `ValueError`, matching the handlers in the
source. -/

/-- Outcome of one outbound HTTP call. -/
inductive HttpResult (α : Type) where
  | transportError (msg : String)
  | response (status : Nat) (body : Option α)
deriving DecidableEq, Repr

/-- Value a fetcher hands back to its caller.  `raised` marks an
exception escaping the fetcher; the embeddings below show it is never
produced. -/
inductive FetchOutput (α : Type) where
  | ok (payload : α)
  | err (message : String)
  | raised (msg : String)
deriving DecidableEq, Repr

/-- Tag check for `Err` values. -/
def FetchOutput.isErr {α : Type} : FetchOutput α → Bool
  | .err _ => true
  | _ => false

/-- Tag check for an escaped exception. -/
def FetchOutput.isRaised {α : Type} : FetchOutput α → Bool
  | .raised _ => true
  | _ => false

/-- Whether the HTTP exchange failed in any of the three ways the spec
names: transport error, non-success status, malformed body. -/
def HttpResult.isFailure {α : Type} : HttpResult α → Bool
  | .transportError _ => true
  | .response status body => decide (400 ≤ status) || body.isNone

/-- Placeholder for the text of a JSON decoding error. -/
def jsonDecodeMsg : String := "Expecting value"

/-- Placeholder for `str(e)` of an `HTTPError` with the given status. -/
def httpErrorText (status : Nat) : String := toString status ++ " Error"

/-- Embedding of `fetch_from_tavily_headless(query)` (lines 110-119): POST the query,
`raise_for_status()`, return `response.json()`; any
`requests.exceptions.RequestException` (transport error, `HTTPError`
from a non-success status, or `JSONDecodeError` from a malformed body)
becomes `{"error": f"Tavily API request failed: …"}`.  The random key
choice (line 111) only selects a credential and does not affect the
returned value, so it is not modelled.  `resp` is the oracle's outcome
for this call. -/
def fetch_from_tavily_headless {α : Type} (resp : HttpResult α) : FetchOutput α :=
  match resp with
  | .transportError msg => .err ("Tavily API request failed: " ++ msg)
  | .response status body =>
    if 400 ≤ status then
      .err ("Tavily API request failed: " ++ httpErrorText status)
    else
      match body with
      | some j => .ok j
      | none => .err ("Tavily API request failed: " ++ jsonDecodeMsg)

/-- The alteration transmitted to OncoKB (line 129): uppercase, with a
leading `P.` protein-change prefix stripped. -/
def oncokbApiAlteration (alteration : String) : String :=
  let alteration_upper := strUpper alteration
  if strStartsWith alteration_upper "P." then strDrop alteration_upper 2
  else alteration_upper

/-- The `tumorType` query parameter (lines 132-133): present iff the raw
tumor type is truthy, transmitted uppercased. -/
def oncokbTumorParam (tumor_type : String) : Option String :=
  if tumor_type ≠ "" then some (strUpper tumor_type) else none

/-- Embedding of `fetch_from_oncokb_headless(hugo_symbol, alteration, tumor_type)`
(lines 121-144).  `net` is the oracle giving the HTTP outcome for the
normalized request `(hugoSymbol, alteration, tumorType?)`.  On a
non-success status the source returns `e.response.json()` — the parsed
error body itself — and only falls back to
`{'error': f"API Error: Status …"}` when that body is malformed; other
`RequestException`s become `{'error': f"Network Error: …"}`. -/
def fetch_from_oncokb_headless {α : Type} (token : Option String)
    (net : String → String → Option String → HttpResult α)
    (hugo_symbol alteration tumor_type : String) : FetchOutput α :=
  match token with
  | none => .err "OncoKB API Token not configured."
  | some _ =>
    match net (strUpper hugo_symbol) (oncokbApiAlteration alteration)
        (oncokbTumorParam tumor_type) with
    | .transportError msg => .err ("Network Error: " ++ msg)
    | .response status body =>
      if 400 ≤ status then
        match body with
        | some j => .ok j
        | none => .err ("API Error: Status " ++ toString status)
      else
        match body with
        | some j => .ok j
        | none => .err ("Network Error: " ++ jsonDecodeMsg)

/-! ## Per-variant processing (src/app.py lines 210-267) -/

/-- One element of a Tavily `results` array; `content`/`url` are read
with `.get`, so each may be absent. -/
structure TavilyItem where
  content : Option String
  url : Option String
deriving DecidableEq, Repr

/-- The dictionary `process_tavily_search` receives: either carries an
`"error"` key or a `results` array (absent `results` ≡ `[]`, as `.get`
with default is used). -/
structure TavilyResponse where
  error : Option String
  results : List TavilyItem
deriving DecidableEq, Repr

/-- The record built at line 219, with `summary_data` flattened into its
`summary`/`warnings` fields (the `error` entry of `summary_data` is
never read downstream). -/
structure TavilyRecord where
  variant : String
  summary : String
  warnings : List String
  sources : List String
deriving DecidableEq, Repr

/-- Embedding of `process_tavily_search(variant, search_result, available_models)`
(lines 210-219).  `gen` is the generation oracle threaded through to
`summarize_with_gemini`. -/
def process_tavily_search (gen : String → String → GenOutcome)
    (available_models : List String) (variant : String)
    (search_result : TavilyResponse) : TavilyRecord :=
  if search_result.error.isSome then
    { variant := variant,
      summary := "Error during search: " ++ search_result.error.getD "",
      warnings := [], sources := [] }
  else
    let content := search_result.results.map (fun r => r.content.getD "")
    let sources := search_result.results.filterMap (fun r =>
      match r.url with
      | some u => if u ≠ "" then some u else none
      | none => none)
    let prompt := "Summarize the clinical significance of '" ++ variant ++
      "' based on the following text:\n\n" ++ strJoin " " content
    let summary_data := summarize_with_gemini gen prompt preferred_models available_models
    { variant := variant, summary := summary_data.summary,
      warnings := summary_data.warnings, sources := sources }

/-- One entry of `diagnosticImplications` / `prognosticImplications`. -/
structure OncoImplication where
  levelOfEvidence : Option String
  tumorTypeName : Option String
deriving DecidableEq, Repr

/-- One entry of `treatments`. -/
structure OncoTreatment where
  drugs : List String
  level : Option String
  indicationName : Option String
deriving DecidableEq, Repr

/-- The dictionary `process_oncokb_search` receives: a fetcher `Err`
value shows up as the `error` field, the parsed annotation body as the
remaining fields (`.get` defaults mean an absent array ≡ `[]`). -/
structure OncoResponse where
  error : Option String
  queryVariant : Option String
  geneSummary : Option String
  variantSummary : Option String
  diagnosticImplications : List OncoImplication
  prognosticImplications : List OncoImplication
  treatments : List OncoTreatment
deriving DecidableEq, Repr

/-- An `OncoResponse` with no fields set (Python `{}`). -/
def emptyOncoResponse : OncoResponse :=
  { error := none, queryVariant := none, geneSummary := none,
    variantSummary := none, diagnosticImplications := [],
    prognosticImplications := [], treatments := [] }

/-- The implication bullet list (lines 238-254): header, one line per
item, then a blank line. -/
def implicationLines (header : String) (items : List OncoImplication) : String :=
  if items.isEmpty then ""
  else
    header ++
      strJoin "" (items.map (fun item =>
        "- **Tumor Type:** " ++ item.tumorTypeName.getD "N/A" ++
        " (Level: " ++ underscoresToSpaces (item.levelOfEvidence.getD "N/A") ++ ")\n")) ++
      "\n"

/-- One treatment bullet (lines 259-263). -/
def treatmentLine (t : OncoTreatment) : String :=
  "- **Drugs:** " ++ strJoin ", " t.drugs ++ " for " ++
    t.indicationName.getD "N/A" ++
    " (Level: " ++ underscoresToSpaces (t.level.getD "N/A") ++ ")\n"

/-- The therapeutic-implications block (lines 256-263); unlike the
implication blocks it has no trailing blank line. -/
def treatmentLines (ts : List OncoTreatment) : String :=
  if ts.isEmpty then ""
  else "**Therapeutic Implications:**\n" ++ strJoin "" (ts.map treatmentLine)

/-- The prompt built at lines 228-263 for a found variant. -/
def buildOncoPrompt (variant_gene variant_alt : String) (r : OncoResponse) : String :=
  "Please provide a clinical summary for the variant " ++ variant_gene ++ " " ++
      variant_alt ++ " based on the following curated data from OncoKB:\n\n" ++
    (if isTruthyStr r.geneSummary then
      "**Gene Summary:** " ++ r.geneSummary.getD "" ++ "\n\n" else "") ++
    (if isTruthyStr r.variantSummary then
      "**Variant Summary:** " ++ r.variantSummary.getD "" ++ "\n\n" else "") ++
    implicationLines "**Diagnostic Implications:**\n" r.diagnosticImplications ++
    implicationLines "**Prognostic Implications:**\n" r.prognosticImplications ++
    treatmentLines r.treatments

/-- The record built at line 267, with `summary_data` flattened into
`summary`/`warnings`. -/
structure OncoRecord where
  variant : String
  summary : String
  warnings : List String
  oncokb_data : OncoResponse
  prompt : String
deriving DecidableEq, Repr

/-- Embedding of `process_oncokb_search(variant_gene, variant_alt, search_result,
available_models)` (lines 221-267): the `"error" in search_result` check
comes first, then the `query.variant == "UNKNOWN"` sentinel, and only
otherwise is a prompt built and `summarize_with_gemini` invoked. -/
def process_oncokb_search (gen : String → String → GenOutcome)
    (available_models : List String) (variant_gene variant_alt : String)
    (search_result : OncoResponse) : OncoRecord :=
  if search_result.error.isSome then
    { variant := variant_gene ++ " " ++ variant_alt,
      summary := "OncoKB API Error: " ++ search_result.error.getD "",
      warnings := [], oncokb_data := search_result, prompt := "" }
  else if search_result.queryVariant = some "UNKNOWN" then
    { variant := variant_gene ++ " " ++ variant_alt,
      summary := "Variant not found in OncoKB.",
      warnings := [], oncokb_data := search_result, prompt := "" }
  else
    let prompt_text := buildOncoPrompt variant_gene variant_alt search_result
    let summary_data := summarize_with_gemini gen prompt_text preferred_models available_models
    { variant := variant_gene ++ " " ++ variant_alt,
      summary := summary_data.summary, warnings := summary_data.warnings,
      oncokb_data := search_result, prompt := prompt_text }

/-! ## Main flow / Result Aggregator (src/app.py lines 270-346)

The Streamlit rendering is presentation; what is embedded is the data
each tab computes: which fetches are dispatched, and the per-variant
records assembled from fetch results and summaries.  `as_completed`
yields records in a nondeterministic completion order; the per-variant
record lists below are in input order, which is adequate for count and
identifier-set properties (they are permutation invariant). -/

/-- Embedding of `active_variants = [v.strip() for v in st.session_state.variants if v.strip()]`
(line 272). -/
def activeVariants (variants : List String) : List String :=
  (variants.map strStrip).filter (fun v => v ≠ "")

/-- Core of Python `v.split(' ', 1)`: split at the first space, `none`
when the text has no space (`len(parts) == 2` fails). -/
def splitFirstSpaceCore : List Char → Option (List Char × List Char)
  | [] => none
  | c :: rest =>
    if c = ' ' then some ([], rest)
    else
      match splitFirstSpaceCore rest with
      | some (g, a) => some (c :: g, a)
      | none => none

/-- The gene/alteration parse at lines 338-340: `v.split(' ', 1)` with
exactly two parts. -/
def parseVariant (v : String) : Option (String × String) :=
  match splitFirstSpaceCore v.data with
  | some (g, a) => some (⟨g⟩, ⟨a⟩)
  | none => none

/-- Whether a variant text contains a space (i.e. parses for OncoKB). -/
def hasSpace (v : String) : Bool := v.data.any (fun c => c = ' ')

/-- The Tavily tab (lines 311-327): one `fetch_from_tavily_headless`
submission per active variant, then one `process_tavily_search`
submission per active variant.  `fetchT` is the fetch phase as one
oracle from query to the dictionary the processing step receives. -/
def tavilyTab (gen : String → String → GenOutcome)
    (fetchT : String → TavilyResponse) (available_models : List String)
    (query_template tumor_type : String) (variants : List String) : List TavilyRecord :=
  variants.map (fun v =>
    process_tavily_search gen available_models v
      (fetchT (tavilyQuery query_template v tumor_type)))

/-- The OncoKB tab (lines 335-346): parse each active variant, skip the
unparseable ones with a warning, then one fetch and one
`process_oncokb_search` submission per parsed variant.  `fetchO` maps a
`(gene, alteration)` pair to the dictionary the processing step
receives (the fetcher internals are modelled separately by
`fetch_from_oncokb_headless`). -/
def oncokbTab (gen : String → String → GenOutcome)
    (fetchO : String → String → OncoResponse) (available_models : List String)
    (variants : List String) : List OncoRecord :=
  (variants.filterMap parseVariant).map (fun ga =>
    process_oncokb_search gen available_models ga.1 ga.2 (fetchO ga.1 ga.2))

/-- Observable state of the Tavily fetch dispatch. -/
structure TavilyFetchPhaseOut where
  search_results : List (String × TavilyResponse)
  cacheAfter : List (String × TavilyResponse)
  fetchedQueries : List String
deriving DecidableEq, Repr

/-- The fetch dispatch of the Tavily tab (lines 314-316) together with
the session cache of lines 47-48.  The cache is threaded through to
record what the source does with it: the dispatch submits one
`fetch_from_tavily_headless` call per active variant without consulting
the cache, and no statement in the flow reads or writes
`st.session_state.cache`, so the cache after the run is the cache before
it.  `fetchedQueries` lists the query of every fetch call issued. -/
def tavilyFetchPhase (fetchT : String → TavilyResponse)
    (query_template tumor_type : String) (variants : List String)
    (cache : List (String × TavilyResponse)) : TavilyFetchPhaseOut :=
  { search_results := variants.map (fun v =>
      (v, fetchT (tavilyQuery query_template v tumor_type))),
    cacheAfter := cache,
    fetchedQueries := variants.map (fun v => tavilyQuery query_template v tumor_type) }

/-! ## Concrete oracles and inputs for witnesses and counterexamples -/

/-- A generation oracle that always succeeds with `"S"`. -/
def genConstS : String → String → GenOutcome := fun _ _ => .ok "S"

/-- The same oracle written differently (definitionally equal pointwise). -/
def genConstS2 : String → String → GenOutcome := fun _ _ => id (GenOutcome.ok "S")

/-- Oracle where every model fails with a plain (non-404) error. -/
def genAllFail : String → String → GenOutcome := fun _ _ => .err "boom"

/-- Oracle: model `A` raises an unrecognized-model error, model `C`
fails plainly, everything else succeeds with `"S"`. -/
def genC4 : String → String → GenOutcome := fun m _ =>
  if m = "A" then .err "404 model is not found"
  else if m = "C" then .err "boom"
  else .ok "S"

/-- Oracle: `A` fails plainly, `B` raises an unrecognized-model error,
`C` fails plainly, everything else succeeds with `"S"`. -/
def genC5 : String → String → GenOutcome := fun m _ =>
  if m = "A" then .err "e1"
  else if m = "B" then .err "404 b is not found"
  else if m = "C" then .err "e3"
  else .ok "S"

/-- Oracle: `A` raises an unrecognized-model error, `C` fails plainly,
everything else (in particular `B`) succeeds with `"S"`. -/
def genC6 : String → String → GenOutcome := fun m _ =>
  if m = "A" then .err "404 a is not found"
  else if m = "C" then .err "boom"
  else .ok "S"

/-- Oracle: `A` fails with a plain error, everything else succeeds. -/
def genC6W : String → String → GenOutcome := fun m _ =>
  if m = "A" then .err "nope" else .ok "S"

/-- A Tavily response dictionary with no fields (Python `{}`). -/
def emptyTavilyResponse : TavilyResponse := { error := none, results := [] }

/-- A Tavily fetch oracle returning the empty dictionary. -/
def fetchTConst : String → TavilyResponse := fun _ => emptyTavilyResponse

/-- An OncoKB fetch oracle returning the empty dictionary. -/
def fetchOConst : String → String → OncoResponse := fun _ _ => emptyOncoResponse

/-- An OncoKB response carrying the not-found sentinel. -/
def rC7unknown : OncoResponse := { emptyOncoResponse with queryVariant := some "UNKNOWN" }

/-- An OncoKB response carrying both an `"error"` key and the not-found
sentinel. -/
def rC7err : OncoResponse :=
  { emptyOncoResponse with error := some "boom", queryVariant := some "UNKNOWN" }

/-- The query the default template builds for `BRAF V600E` with a blank
tumor type. -/
def cacheQuery0 : String := tavilyQuery defaultTemplate "BRAF V600E" ""

/-- A session cache that already maps that query. -/
def cacheC1 : List (String × TavilyResponse) := [(cacheQuery0, emptyTavilyResponse)]

/-! ## Claim C1 — the session cache and the fetch dispatch -/

/-- Claim C1 (amended).  The session cache (src/app.py lines 47-48) is
initialized but never consulted nor updated by the search flow: for any
cache state — in particular one already mapping a query `q` — re-running
the Tavily dispatch leaves the cache exactly unchanged, and the number of
web-search fetch calls issued for `q` equals the number of active
variants whose built query is `q`, independent of the cache. -/
theorem tavily_cache_unused (fetchT : String → TavilyResponse)
    (query_template tumor_type q : String) (variants : List String)
    (cache : List (String × TavilyResponse))
    (hq : q ∈ cache.map Prod.fst) :
    (tavilyFetchPhase fetchT query_template tumor_type variants cache).cacheAfter = cache ∧
    (tavilyFetchPhase fetchT query_template tumor_type variants cache).fetchedQueries.count q
      = (variants.filter (fun v => tavilyQuery query_template v tumor_type == q)).length := by
  refine ⟨rfl, ?_⟩
  show (variants.map (fun v => tavilyQuery query_template v tumor_type)).count q = _
  rw [List.count, List.countP_map, List.countP_eq_length_filter]
  rfl

/-- Witness for `tavily_cache_unused` at a concrete cached query. -/
theorem tavily_cache_unused_witness :
    (tavilyFetchPhase fetchTConst defaultTemplate "" ["BRAF V600E"] cacheC1).cacheAfter = cacheC1 ∧
    (tavilyFetchPhase fetchTConst defaultTemplate "" ["BRAF V600E"] cacheC1).fetchedQueries.count cacheQuery0
      = (["BRAF V600E"].filter (fun v => tavilyQuery defaultTemplate v "" == cacheQuery0)).length :=
  tavily_cache_unused fetchTConst defaultTemplate "" cacheQuery0 ["BRAF V600E"] cacheC1 (by decide)

/-- Counterexample for claim C1.  With `cacheQuery0` already mapped in the
cache, re-running the search for the same single variant issues one
fetch call for that query, not zero; and a fresh fetch for an uncached
variant leaves the (empty) cache empty — nothing is stored. -/
theorem tavily_cache_unused_cx :
    (tavilyFetchPhase fetchTConst defaultTemplate "" ["BRAF V600E"] cacheC1).fetchedQueries.count cacheQuery0 = 1 ∧
    (tavilyFetchPhase fetchTConst defaultTemplate "" ["EGFR L858R"] []).cacheAfter = [] := by
  exact ⟨by decide, rfl⟩

/-! ## Claim C2 — Query Builder equations -/

/-- Claim C2 (amended).  For every template `T` and variant `V`, the
Perplexity construction (lines 304-305) satisfies both claimed
equations: with a blank qualifier it returns exactly `T.substitute(V)`,
and with a qualifier `X` that is non-blank after trimming it returns
`T.substitute(V) ++ " in " ++ X`.  The Tavily construction (line 315)
satisfies the non-blank equation too, but with a blank qualifier it
appends a trailing space: `T.substitute(V) ++ " "`. -/
theorem query_builder_equations (T V X : String)
    (hX : strStrip X = X) (hne : X ≠ "") :
    perplexityQuery T V "" = pyFormatVariant T V ∧
    perplexityQuery T V X = pyFormatVariant T V ++ " in " ++ X ∧
    tavilyQuery T V X = pyFormatVariant T V ++ " in " ++ X ∧
    tavilyQuery T V "" = pyFormatVariant T V ++ " " := by
  have hstrip0 : strStrip "" = "" := rfl
  refine ⟨by simp [perplexityQuery, hstrip0], by simp [perplexityQuery, hX, hne], ?_, ?_⟩
  · simp only [tavilyQuery, hX]
    rw [if_pos hne, String.append_assoc, String.append_assoc,
      ← String.append_assoc " " "in " X]
    rfl
  · simp [tavilyQuery, hstrip0]

/-- Witness for `query_builder_equations` at concrete inputs. -/
theorem query_builder_equations_witness :
    perplexityQuery defaultTemplate "BRAF V600E" "" = pyFormatVariant defaultTemplate "BRAF V600E" ∧
    perplexityQuery defaultTemplate "BRAF V600E" "Melanoma"
      = pyFormatVariant defaultTemplate "BRAF V600E" ++ " in " ++ "Melanoma" ∧
    tavilyQuery defaultTemplate "BRAF V600E" "Melanoma"
      = pyFormatVariant defaultTemplate "BRAF V600E" ++ " in " ++ "Melanoma" ∧
    tavilyQuery defaultTemplate "BRAF V600E" ""
      = pyFormatVariant defaultTemplate "BRAF V600E" ++ " " :=
  query_builder_equations defaultTemplate "BRAF V600E" "Melanoma" (by decide) (by decide)

/-- Counterexample for claim C2.  The claimed blank-qualifier equation
`build(T, V, "") == T.substitute(V)` fails for the Tavily construction:
the built query carries a trailing space. -/
theorem query_builder_equations_cx :
    tavilyQuery defaultTemplate "BRAF V600E" "" ≠
      pyFormatVariant defaultTemplate "BRAF V600E" := by decide

/-! ## Claim C3 — fetcher totality at the boundary -/

/-- Claim C3 (amended).  Neither fetcher lets an exception escape.  The
web-search fetcher converts every failure — transport error, non-success
status, malformed body — into an `Err` value.  The knowledge-base
fetcher converts transport errors and malformed bodies into `Err`
values, but on a non-success HTTP status whose body parses as JSON it
returns that parsed error body verbatim (`e.response.json()`, line 141),
which is not an `Err\x7bmessage\x7d` value. -/
theorem fetcher_boundary_totality {α : Type} :
    (∀ resp : HttpResult α, resp.isFailure = true →
      (fetch_from_tavily_headless resp).isErr = true) ∧
    (∀ resp : HttpResult α, (fetch_from_tavily_headless resp).isRaised = false) ∧
    (∀ (token : Option String) (r : HttpResult α) (h a t : String),
      (fetch_from_oncokb_headless token (fun _ _ _ => r) h a t).isRaised = false) ∧
    (∀ (tok msg h a t : String),
      (fetch_from_oncokb_headless (some tok)
        (fun _ _ _ => (HttpResult.transportError msg : HttpResult α)) h a t).isErr = true) ∧
    (∀ (tok : String) (status : Nat) (h a t : String),
      (fetch_from_oncokb_headless (some tok)
        (fun _ _ _ => (HttpResult.response status none : HttpResult α)) h a t).isErr = true) ∧
    (∀ (tok : String) (status : Nat) (j : α) (h a t : String), 400 ≤ status →
      fetch_from_oncokb_headless (some tok)
        (fun _ _ _ => HttpResult.response status (some j)) h a t = FetchOutput.ok j) := by
  refine ⟨?_, ?_, ?_, ?_, ?_, ?_⟩
  · intro resp hfail
    cases resp with
    | transportError msg => rfl
    | response status body =>
      simp only [HttpResult.isFailure, Bool.or_eq_true, decide_eq_true_eq,
        Option.isNone_iff_eq_none] at hfail
      simp only [fetch_from_tavily_headless]
      by_cases h4 : 400 ≤ status
      · rw [if_pos h4]; rfl
      · rw [if_neg h4]
        cases body with
        | some j =>
          rcases hfail with h | h
          · exact absurd h h4
          · exact absurd h (by simp)
        | none => rfl
  · intro resp
    cases resp with
    | transportError msg => rfl
    | response status body =>
      simp only [fetch_from_tavily_headless]
      by_cases h4 : 400 ≤ status
      · rw [if_pos h4]; rfl
      · rw [if_neg h4]; cases body <;> rfl
  · intro token r h a t
    cases token with
    | none => rfl
    | some tok =>
      cases r with
      | transportError msg => rfl
      | response status body =>
        simp only [fetch_from_oncokb_headless]
        by_cases h4 : 400 ≤ status
        · rw [if_pos h4]; cases body <;> rfl
        · rw [if_neg h4]; cases body <;> rfl
  · intro tok msg h a t; rfl
  · intro tok status h a t
    simp only [fetch_from_oncokb_headless]
    by_cases h4 : 400 ≤ status
    · rw [if_pos h4]; rfl
    · rw [if_neg h4]; rfl
  · intro tok status j h a t h4
    simp only [fetch_from_oncokb_headless]
    rw [if_pos h4]

/-- Witness for `fetcher_boundary_totality` at concrete inputs. -/
theorem fetcher_boundary_totality_witness :
    (fetch_from_tavily_headless (HttpResult.transportError "boom") : FetchOutput Nat).isErr = true ∧
    fetch_from_oncokb_headless (some "t")
      (fun _ _ _ => HttpResult.response 500 (some (7 : Nat))) "EGFR" "L858R" "" = FetchOutput.ok 7 :=
  ⟨(fetcher_boundary_totality (α := Nat)).1 (HttpResult.transportError "boom") (by decide),
   (fetcher_boundary_totality (α := Nat)).2.2.2.2.2 "t" 500 7 "EGFR" "L858R" "" (by decide)⟩

/-- Counterexample for claim C3.  A non-success HTTP status (404) whose body
parses as JSON is not converted to an `Err\x7bmessage\x7d` value by the
knowledge-base fetcher: the parsed body is returned verbatim. -/
theorem fetcher_boundary_totality_cx :
    (fetch_from_oncokb_headless (some "t")
      (fun _ _ _ => HttpResult.response 404 (some (0 : Nat))) "BRAF" "V600E" "").isErr = false := by
  decide

/-! ## Claim C5 — the dynamic splice and which models it excludes -/

/-- Claim C5 (amended).  When a model `m`'s error text carries the
unrecognized-identifier markers and a dynamic model list is available,
the summarizer splices in the dynamic models as additional candidates
and gives up afterwards (the remaining preferred models `rest` do not
influence the outcome).  The spliced candidates exclude only `m` itself
— the model whose error triggered the splice — not every model already
tried: a candidate is kept iff it is in the dynamic list and differs
from `m`. -/
theorem splice_excludes_trigger (gen : String → String → GenOutcome)
    (prompt m msg : String) (rest avail : List String)
    (hm : gen m prompt = GenOutcome.err msg) (h404 : is404NotFound msg = true)
    (ha : avail ≠ []) :
    summarize_with_gemini gen prompt (m :: rest) avail =
      splicePhase gen prompt avail m msg [failWarn m msg] ∧
    (∀ x, x ∈ spliceCandidates avail m ↔ (x ∈ avail ∧ x ≠ m)) ∧
    m ∉ spliceCandidates avail m := by
  have hne : avail.isEmpty = false := by
    cases avail with
    | nil => exact absurd rfl ha
    | cons _ _ => rfl
  refine ⟨?_, ?_, ?_⟩
  · unfold summarize_with_gemini
    simp only [summarizeGo, hm, h404, hne]
    rfl
  · intro x
    simp [spliceCandidates]
  · intro hmem
    simp [spliceCandidates] at hmem

/-- Witness for `splice_excludes_trigger` at a concrete run. -/
theorem splice_excludes_trigger_witness :
    summarize_with_gemini genC5 "p" ["B"] ["A", "C"] =
      splicePhase genC5 "p" ["A", "C"] "B" "404 b is not found"
        [failWarn "B" "404 b is not found"] ∧
    "B" ∉ spliceCandidates ["A", "C"] "B" :=
  ⟨(splice_excludes_trigger genC5 "p" "B" "404 b is not found" [] ["A", "C"]
      rfl (by decide) (by decide)).1,
   (splice_excludes_trigger genC5 "p" "B" "404 b is not found" [] ["A", "C"]
      rfl (by decide) (by decide)).2.2⟩

/-- Counterexample for claim C5.  With preferred list `[A, B]`, model `A`
failing plainly, model `B` failing with an unrecognized-identifier
error, and dynamic list `[A, C]`, the spliced candidates include the
already-tried `A`: its failure warning appears twice in the outcome,
refuting "excluding every model already tried up to that point". -/
theorem splice_excludes_trigger_cx :
    (summarize_with_gemini genC5 "p" ["A", "B"] ["A", "C"]).warnings =
      [failWarn "A" "e1", failWarn "B" "404 b is not found", notFoundNotice "B",
        failWarn "A" "e1", failWarn "C" "e3"] ∧
    (summarize_with_gemini genC5 "p" ["A", "B"] ["A", "C"]).warnings.count
      (failWarn "A" "e1") = 2 :=
  ⟨by decide, by decide⟩

/-! ## Claim C6 — first-success short circuit -/

/-- Claim C6 (amended).  Given candidates `[A, B]` where `A` fails — by an
empty/blocked response or by an error that does not trigger the dynamic
splice — and `B` succeeds with non-empty text `s`, the summarizer
returns `s` immediately with exactly `A`'s failure message as the one
accumulated warning.  (When `A`'s error carries the
unrecognized-identifier markers and a dynamic list is available, `B` is
never attempted; see the counterexample.) -/
theorem first_success_short_circuit (gen : String → String → GenOutcome)
    (prompt A B s w : String) (avail : List String)
    (hA : attemptWarning A (gen A prompt) = some w)
    (hns : noSplice avail (gen A prompt) = true)
    (hB : gen B prompt = GenOutcome.ok s) (hs : s ≠ "") :
    summarize_with_gemini gen prompt [A, B] avail =
      { summary := s, warnings := [w], error := none } := by
  unfold summarize_with_gemini
  cases hgA : gen A prompt with
  | ok t =>
    rw [hgA] at hA
    by_cases ht : t = ""
    · subst ht
      simp only [attemptWarning, ne_eq, not_true_eq_false, if_false,
        Option.some.injEq] at hA
      simp only [summarizeGo, hgA, hB]
      simp [hs, hA]
    · simp [attemptWarning, ht] at hA
  | err msg =>
    rw [hgA] at hA
    rw [hgA] at hns
    simp only [attemptWarning, Option.some.injEq] at hA
    simp only [noSplice, Bool.not_eq_eq_eq_not, Bool.not_true] at hns
    simp only [summarizeGo, hgA, hns, hB]
    simp [hs, hA]

/-- Witness for `first_success_short_circuit` at a concrete run. -/
theorem first_success_short_circuit_witness :
    summarize_with_gemini genC6W "p" ["A", "B"] [] =
      { summary := "S", warnings := [failWarn "A" "nope"], error := none } :=
  first_success_short_circuit genC6W "p" "A" "B" "S" (failWarn "A" "nope") []
    (by decide) (by decide) rfl (by decide)

/-- Counterexample for claim C6.  With `A` always failing (here with an
unrecognized-identifier error), `B` always succeeding with `"S"`, and a
non-empty dynamic list, the outcome is not
`\x7bsummary: "S", warnings: [A's failure message]\x7d`: the dynamic
splice and its `break` keep `B` from ever being attempted. -/
theorem first_success_short_circuit_cx :
    genC6 "B" "p" = GenOutcome.ok "S" ∧
    (summarize_with_gemini genC6 "p" ["A", "B"] ["C"]).summary =
      "Unable to generate summary. Last known error: boom" :=
  ⟨rfl, by decide⟩

/-! ## Claim C10 — when the break after the 404 branch executes -/

/-- Claim C10 (amended).  The `break` at line 200 sits inside the
`if available_models:` block, so it executes only when the dynamic model
list is non-empty.  When a preferred model fails with an
unrecognized-identifier error and the dynamic list is empty or
unavailable, the loop continues with the next preferred model; when the
dynamic list is non-empty, the remaining preferred models are never
attempted (the outcome does not depend on them). -/
theorem break_only_with_dynamic_models (gen : String → String → GenOutcome)
    (prompt m msg : String) (rest : List String)
    (hm : gen m prompt = GenOutcome.err msg) (h404 : is404NotFound msg = true) :
    summarize_with_gemini gen prompt (m :: rest) [] =
      summarizeGo gen prompt [] rest [failWarn m msg] (some msg) ∧
    ∀ (avail rest2 : List String), avail ≠ [] →
      summarize_with_gemini gen prompt (m :: rest) avail =
        summarize_with_gemini gen prompt (m :: rest2) avail := by
  constructor
  · unfold summarize_with_gemini
    simp only [summarizeGo, hm, h404]
    rfl
  · intro avail rest2 ha
    have hne : avail.isEmpty = false := by
      cases avail with
      | nil => exact absurd rfl ha
      | cons _ _ => rfl
    unfold summarize_with_gemini
    simp only [summarizeGo, hm, h404, hne]
    rfl

/-- Witness for `break_only_with_dynamic_models` at a concrete run. -/
theorem break_only_with_dynamic_models_witness :
    summarize_with_gemini genC6 "p" ["A", "B"] [] =
      summarizeGo genC6 "p" [] ["B"] [failWarn "A" "404 a is not found"]
        (some "404 a is not found") ∧
    summarize_with_gemini genC6 "p" ["A", "B"] ["C"] =
      summarize_with_gemini genC6 "p" ["A", "X"] ["C"] :=
  ⟨(break_only_with_dynamic_models genC6 "p" "A" "404 a is not found" ["B"]
      rfl (by decide)).1,
   (break_only_with_dynamic_models genC6 "p" "A" "404 a is not found" ["B"]
      rfl (by decide)).2 ["C"] ["X"] (by decide)⟩

/-- Counterexample for claim C10.  With an empty dynamic list, the loop does
not terminate after `A`'s unrecognized-identifier failure: the second
preferred model `B` is attempted and its success is returned, refuting
"the break executes even when the dynamic model list is empty or
unavailable". -/
theorem break_only_with_dynamic_models_cx :
    summarize_with_gemini genC6 "p" ["A", "B"] [] =
      { summary := "S", warnings := [failWarn "A" "404 a is not found"], error := none } := by
  decide

/-! ## Claim C4 — total-failure outcome -/

/-- For a non-empty candidate list the last-error tracker is always
defined. -/
theorem allFailLastError_cons_isSome (gen : String → String → GenOutcome)
    (prompt : String) :
    ∀ (m : String) (rest : List String),
      ∃ x, allFailLastError gen prompt (m :: rest) = some x := by
  intro m rest
  induction rest generalizing m with
  | nil => exact ⟨_, rfl⟩
  | cons r rs ih => exact ih r

/-- One step of the candidate loop: an empty/blocked response appends
its warning and moves on. -/
theorem summarizeGo_cons_ok_empty (gen : String → String → GenOutcome)
    (prompt : String) (avail : List String) (m : String) (rest : List String)
    (w : List String) (e : Option String) (hg : gen m prompt = GenOutcome.ok "") :
    summarizeGo gen prompt avail (m :: rest) w e =
      summarizeGo gen prompt avail rest (w ++ [emptyRespWarn m]) (some emptyRespErr) := by
  simp [summarizeGo, hg]

/-- One step of the candidate loop: a non-splicing error appends its
warning and moves on. -/
theorem summarizeGo_cons_err_nosplice (gen : String → String → GenOutcome)
    (prompt : String) (avail : List String) (m msg : String) (rest : List String)
    (w : List String) (e : Option String) (hg : gen m prompt = GenOutcome.err msg)
    (hcond : (is404NotFound msg && !avail.isEmpty) = false) :
    summarizeGo gen prompt avail (m :: rest) w e =
      summarizeGo gen prompt avail rest (w ++ [failWarn m msg]) (some msg) := by
  simp [summarizeGo, hg, hcond]

/-- Characterization of an all-failing, non-splicing run of the
candidate loop: each attempt appends exactly its own warning, and the
final outcome reports the last attempt's error. -/
theorem summarizeGo_allFail (gen : String → String → GenOutcome) (prompt : String)
    (avail : List String) :
    ∀ (rest : List String) (m : String) (w : List String) (e : Option String),
      (∀ x ∈ m :: rest, attemptFailure (gen x prompt) ≠ none) →
      (∀ x ∈ m :: rest, noSplice avail (gen x prompt) = true) →
      summarizeGo gen prompt avail (m :: rest) w e =
        finalOutcome
          (w ++ (m :: rest).map (fun x => (attemptWarning x (gen x prompt)).getD ""))
          (allFailLastError gen prompt (m :: rest)) := by
  intro rest
  induction rest with
  | nil =>
    intro m w e hf hn
    have hfm := hf m (by simp)
    have hnm := hn m (by simp)
    cases hg : gen m prompt with
    | ok t =>
      rw [hg] at hfm
      by_cases ht : t = ""
      · subst ht
        simp [summarizeGo, hg, allFailLastError, attemptWarning, attemptFailure]
      · exact absurd (by simp [attemptFailure, ht]) hfm
    | err msg =>
      rw [hg] at hnm
      simp only [noSplice] at hnm
      rw [Bool.not_eq_true'] at hnm
      simp [summarizeGo, hg, hnm, allFailLastError, attemptWarning, attemptFailure]
  | cons r rs ih =>
    intro m w e hf hn
    have hfm := hf m (by simp)
    have hnm := hn m (by simp)
    have hfr : ∀ x ∈ r :: rs, attemptFailure (gen x prompt) ≠ none :=
      fun x hx => hf x (List.mem_cons_of_mem m hx)
    have hnr : ∀ x ∈ r :: rs, noSplice avail (gen x prompt) = true :=
      fun x hx => hn x (List.mem_cons_of_mem m hx)
    cases hg : gen m prompt with
    | ok t =>
      rw [hg] at hfm
      by_cases ht : t = ""
      · subst ht
        rw [summarizeGo_cons_ok_empty gen prompt avail m (r :: rs) w e hg]
        rw [ih r _ _ hfr hnr]
        simp [attemptWarning, hg, allFailLastError]
      · exact absurd (by simp [attemptFailure, ht]) hfm
    | err msg =>
      rw [hg] at hnm
      simp only [noSplice] at hnm
      rw [Bool.not_eq_true'] at hnm
      rw [summarizeGo_cons_err_nosplice gen prompt avail m msg (r :: rs) w e hg hnm]
      rw [ih r _ _ hfr hnr]
      simp [attemptWarning, hg, allFailLastError]

/-- Claim C4 (amended).  When every attempted model fails or returns
empty/blocked text and no attempt triggers the dynamic splice, the
outcome's summary is the total-failure text carrying the last observed
error (`finalSummary` of the defined last error), and the warnings list
has exactly one entry per attempted model.  When the dynamic splice does
trigger, an extra informational warning is appended beyond the
one-per-attempt entries — see the counterexample. -/
theorem summarize_total_failure (gen : String → String → GenOutcome)
    (prompt : String) (avail ms : List String) (hne : ms ≠ [])
    (hf : ∀ x ∈ ms, attemptFailure (gen x prompt) ≠ none)
    (hn : ∀ x ∈ ms, noSplice avail (gen x prompt) = true) :
    (summarize_with_gemini gen prompt ms avail).error = allFailLastError gen prompt ms ∧
    (summarize_with_gemini gen prompt ms avail).summary =
      finalSummary (allFailLastError gen prompt ms) ∧
    (summarize_with_gemini gen prompt ms avail).warnings.length = ms.length ∧
    allFailLastError gen prompt ms ≠ none := by
  cases ms with
  | nil => exact absurd rfl hne
  | cons m rest =>
    have h := summarizeGo_allFail gen prompt avail rest m [] none hf hn
    unfold summarize_with_gemini
    rw [h]
    obtain ⟨x, hx⟩ := allFailLastError_cons_isSome gen prompt m rest
    refine ⟨rfl, rfl, ?_, ?_⟩
    · simp [finalOutcome]
    · rw [hx]; simp

/-- Witness for `summarize_total_failure` at a concrete all-failing run. -/
theorem summarize_total_failure_witness :
    (summarize_with_gemini genAllFail "p" ["A", "B"] []).error =
      allFailLastError genAllFail "p" ["A", "B"] ∧
    (summarize_with_gemini genAllFail "p" ["A", "B"] []).summary =
      finalSummary (allFailLastError genAllFail "p" ["A", "B"]) ∧
    (summarize_with_gemini genAllFail "p" ["A", "B"] []).warnings.length =
      (["A", "B"] : List String).length ∧
    allFailLastError genAllFail "p" ["A", "B"] ≠ none :=
  summarize_total_failure genAllFail "p" [] ["A", "B"] (by decide) (by decide) (by decide)

/-- Counterexample for claim C4.  With preferred list `[A]` and dynamic list
`[C]`, model `A` fails with an unrecognized-identifier error and the
dynamic model `C` fails too: two models are attempted, both fail, yet
the warnings list has three entries — the splice's informational notice
is not tied to any attempted model — refuting "exactly one entry per
attempted model". -/
theorem summarize_total_failure_cx :
    (summarize_with_gemini genC4 "p" ["A"] ["C"]).warnings =
      [failWarn "A" "404 model is not found", notFoundNotice "A", failWarn "C" "boom"] ∧
    (summarize_with_gemini genC4 "p" ["A"] ["C"]).warnings.length ≠ 2 :=
  ⟨by decide, by decide⟩

/-! ## Claim C7 — knowledge-base not-found sentinel -/

/-- Claim C7 (amended).  For every knowledge-base response that carries
`query.variant == "UNKNOWN"` and no top-level `"error"` key (the
fetcher-error branch at line 223 takes precedence over the sentinel
check), the produced record's summary is exactly
`"Variant not found in OncoKB."` with an empty warnings list, and no
generation call is issued: the record is the same for any generation
oracle and any dynamic model list. -/
theorem oncokb_unknown_sentinel (gen₁ gen₂ : String → String → GenOutcome)
    (av₁ av₂ : List String) (g a : String) (r : OncoResponse)
    (herr : r.error = none) (hunk : r.queryVariant = some "UNKNOWN") :
    (process_oncokb_search gen₁ av₁ g a r).summary = "Variant not found in OncoKB." ∧
    (process_oncokb_search gen₁ av₁ g a r).warnings = [] ∧
    process_oncokb_search gen₁ av₁ g a r = process_oncokb_search gen₂ av₂ g a r := by
  unfold process_oncokb_search
  rw [herr, hunk]
  simp

/-- Witness for `oncokb_unknown_sentinel` at a concrete response. -/
theorem oncokb_unknown_sentinel_witness :
    (process_oncokb_search genConstS [] "EGFR" "L858R" rC7unknown).summary =
      "Variant not found in OncoKB." ∧
    (process_oncokb_search genConstS [] "EGFR" "L858R" rC7unknown).warnings = [] ∧
    process_oncokb_search genConstS [] "EGFR" "L858R" rC7unknown =
      process_oncokb_search genAllFail ["m"] "EGFR" "L858R" rC7unknown :=
  oncokb_unknown_sentinel genConstS genAllFail [] ["m"] "EGFR" "L858R" rC7unknown rfl rfl

/-- Counterexample for claim C7.  A response carrying both an `"error"` key
and the `UNKNOWN` sentinel does not produce the not-found summary: the
error branch wins, so the claim as stated (quantifying over every
response with the sentinel) fails. -/
theorem oncokb_unknown_sentinel_cx :
    rC7err.queryVariant = some "UNKNOWN" ∧
    (process_oncokb_search genConstS [] "EGFR" "L858R" rC7err).summary ≠
      "Variant not found in OncoKB." :=
  ⟨rfl, by decide⟩

/-! ## Claim C9 — the summarizer depends only on its arguments -/

/-- The dynamic loop is determined by the generation oracle's responses. -/
theorem dynamicLoop_congr (gen₁ gen₂ : String → String → GenOutcome) (prompt : String)
    (h : ∀ m p, gen₁ m p = gen₂ m p) :
    ∀ (ms w : List String) (e : Option String),
      dynamicLoop gen₁ prompt ms w e = dynamicLoop gen₂ prompt ms w e := by
  intro ms
  induction ms with
  | nil => intro w e; rfl
  | cons m rest ih =>
    intro w e
    simp only [dynamicLoop, h]
    cases gen₂ m prompt with
    | ok t =>
      by_cases ht : t = ""
      · subst ht
        simp only [ne_eq, not_true_eq_false, if_false]
        exact ih _ _
      · simp [ht]
    | err msg => exact ih _ _

/-- The splice phase is determined by the generation oracle's responses. -/
theorem splicePhase_congr (gen₁ gen₂ : String → String → GenOutcome) (prompt : String)
    (h : ∀ m p, gen₁ m p = gen₂ m p) :
    ∀ (avail : List String) (m msg : String) (w1 : List String),
      splicePhase gen₁ prompt avail m msg w1 = splicePhase gen₂ prompt avail m msg w1 := by
  intro avail m msg w1
  unfold splicePhase
  rw [dynamicLoop_congr gen₁ gen₂ prompt h]

/-- The candidate loop is determined by the generation oracle's
responses. -/
theorem summarizeGo_congr (gen₁ gen₂ : String → String → GenOutcome) (prompt : String)
    (avail : List String) (h : ∀ m p, gen₁ m p = gen₂ m p) :
    ∀ (ms w : List String) (e : Option String),
      summarizeGo gen₁ prompt avail ms w e = summarizeGo gen₂ prompt avail ms w e := by
  intro ms
  induction ms with
  | nil => intro w e; rfl
  | cons m rest ih =>
    intro w e
    simp only [summarizeGo, h]
    cases gen₂ m prompt with
    | ok t =>
      by_cases ht : t = ""
      · subst ht
        simp only [ne_eq, not_true_eq_false, if_false]
        exact ih _ _
      · simp [ht]
    | err msg =>
      by_cases hc : (is404NotFound msg && !avail.isEmpty) = true
      · simp only [hc, if_true]
        exact splicePhase_congr gen₁ gen₂ prompt h avail m msg _
      · simp only [hc, if_false]
        exact ih _ _

/-- Claim C9 (confirmed).  `summarize_with_gemini` neither reads nor
mutates state outside its arguments: with the external generation call
modelled as an oracle, two runs with the same prompt and candidate
lists and pointwise-identical generation responses produce identical
`(summary, warnings, last-error)` outcomes. -/
theorem summarize_pure (gen₁ gen₂ : String → String → GenOutcome)
    (prompt : String) (ms avail : List String)
    (h : ∀ m p, gen₁ m p = gen₂ m p) :
    summarize_with_gemini gen₁ prompt ms avail =
      summarize_with_gemini gen₂ prompt ms avail :=
  summarizeGo_congr gen₁ gen₂ prompt avail h ms [] none

/-- Witness for `summarize_pure` on two syntactically different but
pointwise-equal oracles. -/
theorem summarize_pure_witness :
    summarize_with_gemini genConstS "p" preferred_models [] =
      summarize_with_gemini genConstS2 "p" preferred_models [] :=
  summarize_pure genConstS genConstS2 "p" preferred_models [] (fun _ _ => rfl)

/-! ## Claim C8 — one record per input variant -/

/-- A successful first-space split reassembles to the original text. -/
theorem splitFirstSpaceCore_append :
    ∀ (l g a : List Char), splitFirstSpaceCore l = some (g, a) → g ++ ' ' :: a = l := by
  intro l
  induction l with
  | nil => intro g a h; exact absurd h (by simp [splitFirstSpaceCore])
  | cons c rest ih =>
    intro g a h
    simp only [splitFirstSpaceCore] at h
    by_cases hc : c = ' '
    · rw [if_pos hc] at h
      simp only [Option.some.injEq, Prod.mk.injEq] at h
      obtain ⟨hg, ha⟩ := h
      subst hg ha hc
      rfl
    · rw [if_neg hc] at h
      cases hsub : splitFirstSpaceCore rest with
      | some p =>
        obtain ⟨g', a'⟩ := p
        rw [hsub] at h
        simp only [Option.some.injEq, Prod.mk.injEq] at h
        obtain ⟨hg, ha⟩ := h
        subst hg ha
        have hr := ih g' a' hsub
        simp [← hr]
      | none =>
        rw [hsub] at h
        exact absurd h (by simp)

/-- The first-space split succeeds exactly on texts containing a space. -/
theorem splitFirstSpaceCore_isSome :
    ∀ l : List Char, (splitFirstSpaceCore l).isSome = l.any (fun c => c = ' ') := by
  intro l
  induction l with
  | nil => rfl
  | cons c rest ih =>
    simp only [splitFirstSpaceCore, List.any_cons]
    by_cases hc : c = ' '
    · rw [if_pos hc]
      simp [hc]
    · rw [if_neg hc]
      cases hsub : splitFirstSpaceCore rest with
      | some p =>
        obtain ⟨g', a'⟩ := p
        rw [hsub] at ih
        simp [← ih, hc]
      | none =>
        rw [hsub] at ih
        simp [← ih, hc]

/-- A parsed variant reassembles, through the record's
`f"\x7bvariant_gene\x7d \x7bvariant_alt\x7d"` field, to the original
input text. -/
theorem parseVariant_join (v g a : String)
    (h : parseVariant v = some (g, a)) : g ++ " " ++ a = v := by
  simp only [parseVariant] at h
  cases hsub : splitFirstSpaceCore v.data with
  | some p =>
    obtain ⟨gl, al⟩ := p
    rw [hsub] at h
    simp only [Option.some.injEq, Prod.mk.injEq] at h
    obtain ⟨hg, ha⟩ := h
    subst hg ha
    apply String.ext
    have hr := splitFirstSpaceCore_append v.data gl al hsub
    simpa [String.data_append] using hr
  | none =>
    rw [hsub] at h
    exact absurd h (by simp)

/-- A variant parses for the OncoKB path exactly when it has a space. -/
theorem parseVariant_isSome (v : String) :
    (parseVariant v).isSome = hasSpace v := by
  simp only [parseVariant, hasSpace]
  rw [← splitFirstSpaceCore_isSome]
  cases hsub : splitFirstSpaceCore v.data with
  | some p => obtain ⟨gl, al⟩ := p; simp
  | none => simp

/-- A Tavily record always carries the variant it was built for. -/
theorem process_tavily_variant (gen : String → String → GenOutcome)
    (avail : List String) (v : String) (r : TavilyResponse) :
    (process_tavily_search gen avail v r).variant = v := by
  unfold process_tavily_search
  by_cases h : r.error.isSome
  · rw [if_pos h]
  · rw [if_neg h]

/-- An OncoKB record always carries `gene ++ " " ++ alteration`. -/
theorem process_oncokb_variant (gen : String → String → GenOutcome)
    (avail : List String) (g a : String) (r : OncoResponse) :
    (process_oncokb_search gen avail g a r).variant = g ++ " " ++ a := by
  unfold process_oncokb_search
  by_cases h1 : r.error.isSome
  · rw [if_pos h1]
  · rw [if_neg h1]
    by_cases h2 : r.queryVariant = some "UNKNOWN"
    · rw [if_pos h2]
    · rw [if_neg h2]

/-- Claim C8 (amended).  For every generation, fetch, and summarization
behaviour — failures included — the Tavily tab produces exactly one
record per active variant, in particular the record count equals the
input count and the variant identifiers are exactly the input list.
The OncoKB tab, however, produces one record per variant in the
two-token `"GENE ALTERATION"` form (those containing a space) and
silently skips the rest, so its record count equals the count of
parseable variants, not of all active variants. -/
theorem one_record_per_variant (gen : String → String → GenOutcome)
    (fetchT : String → TavilyResponse) (fetchO : String → String → OncoResponse)
    (avail : List String) (query_template tumor_type : String)
    (variants : List String) :
    (tavilyTab gen fetchT avail query_template tumor_type variants).map
      (fun r => r.variant) = variants ∧
    (tavilyTab gen fetchT avail query_template tumor_type variants).length =
      variants.length ∧
    (oncokbTab gen fetchO avail variants).map (fun r => r.variant) =
      variants.filter hasSpace ∧
    (oncokbTab gen fetchO avail variants).length =
      (variants.filter hasSpace).length := by
  have htav : ∀ vs : List String,
      (tavilyTab gen fetchT avail query_template tumor_type vs).map
        (fun r => r.variant) = vs := by
    intro vs
    unfold tavilyTab
    induction vs with
    | nil => rfl
    | cons v vs ih =>
      simp only [List.map_cons, List.map_map] at ih ⊢
      rw [process_tavily_variant]
      exact congrArg (v :: ·) ih
  have honco : ∀ vs : List String,
      (oncokbTab gen fetchO avail vs).map (fun r => r.variant) =
        vs.filter hasSpace := by
    intro vs
    unfold oncokbTab
    induction vs with
    | nil => rfl
    | cons v vs ih =>
      rw [List.filterMap_cons]
      cases hp : parseVariant v with
      | none =>
        have : hasSpace v = false := by
          rw [← parseVariant_isSome, hp]
          rfl
        rw [List.filter_cons, this]
        simpa using ih
      | some p =>
        obtain ⟨g, a⟩ := p
        have hsp : hasSpace v = true := by
          rw [← parseVariant_isSome, hp]
          rfl
        rw [List.filter_cons, hsp]
        simp only [List.map_cons, if_true]
        rw [process_oncokb_variant, parseVariant_join v g a hp]
        exact congrArg (v :: ·) ih
  refine ⟨htav variants, ?_, honco variants, ?_⟩
  · have h := congrArg List.length (htav variants)
    simpa [List.length_map] using h
  · have h := congrArg List.length (honco variants)
    simpa [List.length_map] using h

/-- Counterexample for claim C8.  A space-less variant yields no OncoKB
record at all: the output record count (0) differs from the input count
(1), refuting the unrestricted one-record-per-input-variant claim. -/
theorem one_record_per_variant_cx :
    (oncokbTab genConstS fetchOConst [] ["BRAF"]).length = 0 ∧
    (["BRAF"] : List String).length = 1 :=
  ⟨by decide, rfl⟩

end VariantApp
